import Mathlib

/-!
Shallow embedding of the core of the `Meet-a-bot` repository
(`src/teams-api/src/client.rs` and `src/meet-a-bot/src/database/queries/user.rs`).

Time is modelled in nanoseconds (the granularity of Rust `Duration` /
`Instant`): an `Instant` is a `Nat` (nanoseconds since some fixed origin) and
`Instant::elapsed` at observation time `now` is the saturating difference
`now - acquired` (Rust instants are monotonic, and `duration_since`
saturates at zero).
-/

namespace TeamsApi

/-- nanoseconds per second: the conversion used by `Duration::from_secs`. -/
def nsPerSec : Nat := 1000000000

/-- the `Token` struct of `client.rs`: `expires_in` (declared lifetime in
seconds, `usize`), `access_token` (opaque bearer string) and `acquired`
(the local `Instant` captured at deserialization time, in nanoseconds). -/
structure Token where
  expires_in : Nat
  access_token : String
  acquired : Nat
deriving Repr, DecidableEq

/-- the predicate `Token::is_valid`, evaluated at instant `now`:
`self.acquired.elapsed() < Duration::from_secs(self.expires_in)
  .checked_sub(Duration::from_secs(60)).unwrap_or_default()`.
`elapsed` is `now - acquired` (saturating), and `checked_sub ... .unwrap_or_default()`
is exactly truncated subtraction (`None` becomes the zero duration), which
`Nat` subtraction provides. -/
def Token.is_valid (t : Token) (now : Nat) : Bool :=
  now - t.acquired < t.expires_in * nsPerSec - 60 * nsPerSec

/-- the wire shape of the issuer token response: the JSON carries
`expires_in` and `access_token`; `acquired_field` stands for any
timestamp-like datum the issuer might also send in the body for the
`acquired` field, which the `#[serde(skip, default = "Instant::now")]`
attribute ignores entirely. -/
structure WireToken where
  expires_in : Nat
  access_token : String
  acquired_field : Option Nat
deriving Repr, DecidableEq

/-- deserializing an issuer response body into a `Token` at local instant
`now`: the serde derive copies `expires_in` and `access_token` from the wire
and, because of `#[serde(skip, default = "Instant::now")]`, fills `acquired`
with the local current instant. -/
def deserializeToken (w : WireToken) (now : Nat) : Token :=
  { expires_in := w.expires_in, access_token := w.access_token, acquired := now }

/-- the fixed default service endpoint hard-coded in `create_request`. -/
def defaultBaseUrl : String := "https://smba.trafficmanager.net/teams"

/-- Rust `str::trim_end_matches('/')`: removes every trailing `/`. -/
def trimEndSlashes (s : String) : String :=
  String.mk ((s.toList.reverse.dropWhile (fun c => c = '/')).reverse)

/-- the effective base URL of `create_request`:
`base_url.map(|x| x.trim_end_matches('/')).unwrap_or("https://smba.trafficmanager.net/teams")`. -/
def effectiveBaseUrl (base_url : Option String) : String :=
  (base_url.map trimEndSlashes).getD defaultBaseUrl

/-- the full request URL of `create_request`: `format!("{base_url}{url}")`
applied to the effective base URL and the caller-supplied path. -/
def requestUrl (base_url : Option String) (url : String) : String :=
  effectiveBaseUrl base_url ++ url

/-- the crate `Error` type as the client code uses it, with the error
payload type `β` abstract (in source it is the Teams error envelope):
`teams` is `Error::Teams(payload)` built from a parsed non-2xx body,
`serde` stands for the error produced when `result.json().await?` fails to
parse a body, and `transport` for a `reqwest` send failure. -/
inductive Error (β : Type) where
  | teams : β → Error β
  | serde : Error β
  | transport : Error β
deriving Repr, DecidableEq

/-- an HTTP response as the client observes it: its status code, and the
results of attempting to parse its body as the declared success type `α`
or as the error envelope `β` (`none` models a body that does not parse). -/
structure HttpResponse (α β : Type) where
  status : Nat
  okBody : Option α
  errBody : Option β
deriving Repr, DecidableEq

/-- the `reqwest::StatusCode::is_success` test: status in `200..=299`. -/
def isSuccessStatus (s : Nat) : Bool := 200 ≤ s && s < 300

/-- the response-classification match that every exchange in `client.rs`
performs: `match result.status().is_success() \x7b false =>
Err(Error::Teams(result.json().await?)), true => Ok(result.json().await?) \x7d`. -/
def classifyResponse (r : HttpResponse α β) : Except (Error β) α :=
  match isSuccessStatus r.status with
  | false =>
    match r.errBody with
    | some e => .error (.teams e)
    | none => .error .serde
  | true =>
    match r.okBody with
    | some v => .ok v
    | none => .error .serde

/-- response handling of `fetch_token`: classify the issuer response and, on
the 2xx path, deserialize the body into a `Token` at the local instant
`now` (the moment `result.json()` parses it). -/
def fetch_token_classify (now : Nat) (r : HttpResponse WireToken β) :
    Except (Error β) Token :=
  (classifyResponse r).map (fun w => deserializeToken w now)

/-- response handling of `create_conversation` (status match identical to
every other operation; `α` stands for `ConversationResourceResponse`). -/
def create_conversation_classify (r : HttpResponse α β) : Except (Error β) α :=
  classifyResponse r

/-- response handling of `send_to_conversation` (`α` stands for
`ResourceResponse`). -/
def send_to_conversation_classify (r : HttpResponse α β) : Except (Error β) α :=
  classifyResponse r

/-- response handling of `update_activity` (`α` stands for
`ResourceResponse`). -/
def update_activity_classify (r : HttpResponse α β) : Except (Error β) α :=
  classifyResponse r

/-- the authenticated request that `create_request` returns: the HTTP
method, the composed URL and the bearer credential attached by
`bearer_auth`. -/
structure Request where
  method : String
  url : String
  bearer : String
deriving Repr, DecidableEq

/-- one execution of `create_request`'s critical section, made explicit:
`slot` is the content of the mutex-guarded `Option<Token>` when the lock is
released, `fetches` counts the calls to `fetch_token` made during the
section (the source makes at most one), and `out` is the returned
`Result<RequestBuilder>`; inside `out`, a `none` request models the panic
of `token.as_ref().unwrap()` on an empty slot. -/
structure CreateRequestRun (β : Type) where
  slot : Option Token
  fetches : Nat
  out : Except (Error β) (Option Request)
deriving Repr

/-- the check-and-possibly-refresh step of `create_request`, mirroring the
source match `Some(ref t) if !t.is_valid() => refresh, None => refresh,
_ => ()` where refresh is `*token = Some(self.fetch_token().await?)` (the
`?` propagates a fetch error before the slot is assigned). Returns the
slot contents after the step, the number of `fetch_token` calls made, and
the propagated error if any. -/
def refreshOutcome (slot : Option Token) (now : Nat)
    (fetch : Except (Error β) Token) :
    Option Token × Nat × Option (Error β) :=
  match slot with
  | some t =>
    if !t.is_valid now then
      match fetch with
      | .ok newTok => (some newTok, 1, none)
      | .error e => (slot, 1, some e)
    else (slot, 0, none)
  | none =>
    match fetch with
    | .ok newTok => (some newTok, 1, none)
    | .error e => (slot, 1, some e)

/-- the body of `TeamsBotClient::create_request`, as a function of the slot contents at
lock acquisition, the current instant `now`, and the outcome `fetch` that a
call to `fetch_token` would produce: run the check-and-possibly-refresh
step, then build the request from `requestUrl` and the unwrapped slot. -/
def create_request (slot : Option Token) (now : Nat)
    (fetch : Except (Error β) Token)
    (method : String) (base_url : Option String) (url : String) :
    CreateRequestRun β :=
  match refreshOutcome slot now fetch with
  | (s, n, some e) => ⟨s, n, .error e⟩
  | (s, n, none) =>
    ⟨s, n, .ok (s.map fun t =>
        { method := method, url := requestUrl base_url url,
          bearer := t.access_token })⟩

/-- N callers of `create_request` on one client instance. The cache mutex
admits the callers one at a time, so their critical sections form a
sequence; each caller starts from the slot state its predecessor left (the
instant `now` is shared: the callers race, no time passes between
sections), and each would receive the same issuer outcome `fetch`.
Returns the final slot, the total number of `fetch_token` calls, and every
caller's result. -/
def run_callers (slot : Option Token) (now : Nat)
    (fetch : Except (Error β) Token)
    (method : String) (base_url : Option String) (url : String) :
    Nat → Option Token × Nat × List (Except (Error β) (Option Request))
  | 0 => (slot, 0, [])
  | n + 1 =>
    let r := create_request slot now fetch method base_url url
    let rest := run_callers r.slot now fetch method base_url url n
    (rest.1, r.fetches + rest.2.1, r.out :: rest.2.2)

/-- the outbound HTTP exchange that `fetch_token` performs, before the
response arrives. -/
structure IssuerRequest where
  method : String
  url : String
  contentType : String
  body : String
deriving Repr, DecidableEq

/-- the fixed issuer endpoint hard-coded in `fetch_token`. -/
def issuerEndpoint : String :=
  "https://login.microsoftonline.com/botframework.com/oauth2/v2.0/token"

/-- the fixed, already URL-encoded scope value for the target API's default
resource, as it appears in `fetch_token`'s body literal. -/
def defaultScope : String := "https%3A%2F%2Fapi.botframework.com%2F.default"

/-- the single request `fetch_token` sends: a POST to `issuerEndpoint` with
content type `application/x-www-form-urlencoded` and body
`format!("grant_type=client_credentials&client_id={client_id}&client_secret={client_secret}&scope=https%3A%2F%2Fapi.botframework.com%2F.default")`. -/
def fetch_token_request (client_id client_secret : String) : IssuerRequest :=
  { method := "POST"
    url := issuerEndpoint
    contentType := "application/x-www-form-urlencoded"
    body := "grant_type=client_credentials&client_id=" ++ client_id ++
      "&client_secret=" ++ client_secret ++
      "&scope=https%3A%2F%2Fapi.botframework.com%2F.default" }

/-- splits a character list at every occurrence of `sep` (the separator is
dropped; empty segments are kept), the way form bodies are split at `&`
and each pair at `=`. -/
def splitSep (sep : Char) : List Char → List (List Char)
  | [] => [[]]
  | c :: rest =>
    if c = sep then [] :: splitSep sep rest
    else
      match splitSep sep rest with
      | [] => [[c]]
      | h :: t => (c :: h) :: t

/-- reads one `key=value` segment of a form body. -/
def formPair (kv : List Char) : String × String :=
  match splitSep '=' kv with
  | [] => ("", "")
  | [k] => (String.mk k, "")
  | k :: v :: _ => (String.mk k, String.mk v)

/-- decodes an `application/x-www-form-urlencoded` body into its key/value
pairs. -/
def parseForm (s : String) : List (String × String) :=
  (splitSep '&' s.toList).map formPair

end TeamsApi

namespace MeetABot

/-- one row of the `user` table of the meet-a-bot persistence layer:
columns `id`, `name` and the nullable `conversation_id`. -/
structure UserRow where
  id : String
  name : String
  conversation_id : Option String
deriving Repr, DecidableEq

/-- the `EXISTS (SELECT * FROM user WHERE id = ?)` subquery. -/
def userExists (user_id : String) (table : List UserRow) : Bool :=
  table.any (fun r => r.id = user_id)

/-- the function `create_user` of `database/queries/user.rs`: executes
`INSERT INTO user (id, name) SELECT ?, ? WHERE NOT EXISTS
(SELECT * FROM user WHERE id = ?)` with `(user_id, name, user_id)` and
returns `Ok(())` (the affected-row count is discarded); a new row's
`conversation_id` is the column default NULL. The statement itself cannot
fail (the guard prevents any duplicate `id`), so the `Except` is `ok` with
the resulting table whenever the statement executes. -/
def create_user (user_id name : String) (table : List UserRow) :
    Except String (List UserRow) :=
  .ok (if userExists user_id table then table
    else table ++ [{ id := user_id, name := name, conversation_id := none }])

end MeetABot

namespace TeamsApi

/-- C3: for every token and every current instant `now` (at or after the
acquisition instant), `is_valid` returns true iff
`now - acquired_at < max(expires_in - 60 s, 0)`; for all `expires_in ≥ 61`
a token acquired at `now` is valid immediately, stays valid strictly
before `now + expires_in - 60` seconds and is invalid from exactly
`now + expires_in - 60` seconds on; for all `expires_in ≤ 60` the token is
never valid. -/
theorem token_validity_window :
    (∀ t : Token, ∀ now : Nat, t.acquired ≤ now →
      (t.is_valid now = true ↔
        (now : ℤ) - (t.acquired : ℤ) <
          max ((t.expires_in : ℤ) * (nsPerSec : ℤ) - 60 * (nsPerSec : ℤ)) 0)) ∧
    (∀ e a : Nat, ∀ s : String, 61 ≤ e →
      Token.is_valid ⟨e, s, a⟩ a = true ∧
      (∀ now, a ≤ now → now < a + (e - 60) * nsPerSec →
        Token.is_valid ⟨e, s, a⟩ now = true) ∧
      (∀ now, a + (e - 60) * nsPerSec ≤ now →
        Token.is_valid ⟨e, s, a⟩ now = false)) ∧
    (∀ e a now : Nat, ∀ s : String, e ≤ 60 →
      Token.is_valid ⟨e, s, a⟩ now = false) := by
  refine ⟨?_, ?_, ?_⟩
  · intro t now h
    simp only [Token.is_valid, nsPerSec, decide_eq_true_eq]
    omega
  · intro e a s he
    refine ⟨?_, ?_, ?_⟩
    · simp only [Token.is_valid, nsPerSec, decide_eq_true_eq]
      omega
    · intro now h1 h2
      simp only [Token.is_valid, nsPerSec, decide_eq_true_eq] at h2 ⊢
      omega
    · intro now h1
      simp only [Token.is_valid, nsPerSec, decide_eq_false_iff_not, decide_eq_true_eq] at h1 ⊢
      omega
  · intro e a now s he
    simp only [Token.is_valid, nsPerSec, decide_eq_false_iff_not, decide_eq_true_eq]
    omega

/-- witness for `token_validity_window` at a concrete token: lifetime 3600 s,
acquired at instant 0, checked 10 s later. -/
theorem token_validity_window_witness :
    Token.is_valid ⟨3600, "tok-A", 0⟩ (10 * nsPerSec) = true :=
  (token_validity_window.2.1 3600 0 "tok-A" (by norm_num)).2.1
    (10 * nsPerSec) (by norm_num) (by norm_num [nsPerSec])

/-- C8: the `acquired` field of a deserialized token is the local current
instant at deserialization time, and the token is entirely independent of
any timestamp-like field the issuer response body may carry. -/
theorem acquired_set_locally :
    ∀ w : WireToken, ∀ now : Nat,
      (deserializeToken w now).acquired = now ∧
      (∀ ts : Option Nat,
        deserializeToken { w with acquired_field := ts } now =
          deserializeToken w now) :=
  fun _ _ => ⟨rfl, fun _ => rfl⟩

end TeamsApi

namespace MeetABot

/-- C10: `create_user` is idempotent at the public interface: when a row
with the given id already exists, the call returns `Ok` and the table is
unchanged (the existing row keeps its name, and no duplicate row appears). -/
theorem create_user_idempotent (user_id name : String) (table : List UserRow)
    (h : userExists user_id table = true) :
    create_user user_id name table = .ok table := by
  simp [create_user, h]

/-- witness for `create_user_idempotent`: re-creating user `u1` with a
different name leaves the one-row table as it was. -/
theorem create_user_idempotent_witness :
    create_user "u1" "other" [⟨"u1", "n1", none⟩] =
      .ok [⟨"u1", "n1", none⟩] :=
  create_user_idempotent "u1" "other" [⟨"u1", "n1", none⟩] (by decide)

end MeetABot

namespace TeamsApi

/-- a token that is invalid stays invalid at every later instant: the
elapsed time only grows while the validity bound is fixed. -/
theorem is_valid_mono_false (t : Token) (now now2 : Nat)
    (h : t.is_valid now = false) (hle : now ≤ now2) :
    t.is_valid now2 = false := by
  simp only [Token.is_valid, decide_eq_false_iff_not, decide_eq_true_eq] at h ⊢
  omega

/-- shape of the check step from an empty slot with a successful fetch. -/
theorem refreshOutcome_none_ok {β : Type} (now : Nat) (t : Token) :
    refreshOutcome (β := β) none now (.ok t) = (some t, 1, none) := rfl

/-- shape of the check step from an empty slot with a failing fetch. -/
theorem refreshOutcome_none_error {β : Type} (now : Nat) (e : Error β) :
    refreshOutcome none now (.error e) = (none, 1, some e) := rfl

/-- shape of the check step on an invalid token with a successful fetch. -/
theorem refreshOutcome_invalid_ok {β : Type} (t : Token) (now : Nat)
    (t2 : Token) (hv : t.is_valid now = false) :
    refreshOutcome (β := β) (some t) now (.ok t2) = (some t2, 1, none) := by
  simp [refreshOutcome, hv]

/-- shape of the check step on an invalid token with a failing fetch. -/
theorem refreshOutcome_invalid_error {β : Type} (t : Token) (now : Nat)
    (e : Error β) (hv : t.is_valid now = false) :
    refreshOutcome (some t) now (.error e) = (some t, 1, some e) := by
  simp [refreshOutcome, hv]

/-- shape of the check step on a valid token: no fetch happens regardless
of what the issuer would answer. -/
theorem refreshOutcome_valid {β : Type} (t : Token) (now : Nat)
    (fetch : Except (Error β) Token) (hv : t.is_valid now = true) :
    refreshOutcome (some t) now fetch = (some t, 0, none) := by
  simp [refreshOutcome, hv]

/-- shape of a `create_request` run from an empty slot with a successful
fetch. -/
theorem create_request_none_ok {β : Type} (now : Nat) (t : Token)
    (m : String) (b : Option String) (u : String) :
    create_request (β := β) none now (.ok t) m b u =
      ⟨some t, 1, .ok (some ⟨m, requestUrl b u, t.access_token⟩)⟩ := by
  rw [create_request, refreshOutcome_none_ok]
  rfl

/-- shape of a `create_request` run from an empty slot with a failing
fetch. -/
theorem create_request_none_error {β : Type} (now : Nat) (e : Error β)
    (m : String) (b : Option String) (u : String) :
    create_request none now (.error e) m b u = ⟨none, 1, .error e⟩ := by
  rw [create_request, refreshOutcome_none_error]

/-- shape of a `create_request` run from a slot holding an invalid token
with a successful fetch. -/
theorem create_request_invalid_ok {β : Type} (t : Token) (now : Nat)
    (t2 : Token) (m : String) (b : Option String) (u : String)
    (hv : t.is_valid now = false) :
    create_request (β := β) (some t) now (.ok t2) m b u =
      ⟨some t2, 1, .ok (some ⟨m, requestUrl b u, t2.access_token⟩)⟩ := by
  rw [create_request, refreshOutcome_invalid_ok t now t2 hv]
  rfl

/-- shape of a `create_request` run from a slot holding an invalid token
with a failing fetch. -/
theorem create_request_invalid_error {β : Type} (t : Token) (now : Nat)
    (e : Error β) (m : String) (b : Option String) (u : String)
    (hv : t.is_valid now = false) :
    create_request (some t) now (.error e) m b u = ⟨some t, 1, .error e⟩ := by
  rw [create_request, refreshOutcome_invalid_error t now e hv]

/-- shape of a `create_request` run from a slot holding a valid token:
no fetch happens and the cached token is used unchanged. -/
theorem create_request_valid {β : Type} (t : Token) (now : Nat)
    (fetch : Except (Error β) Token)
    (m : String) (b : Option String) (u : String)
    (hv : t.is_valid now = true) :
    create_request (some t) now fetch m b u =
      ⟨some t, 0, .ok (some ⟨m, requestUrl b u, t.access_token⟩)⟩ := by
  rw [create_request, refreshOutcome_valid t now fetch hv]
  rfl

/-- C1: a run of `create_request` calls `fetch_token` exactly once iff the
slot is empty or the held token is invalid at the current instant; when the
slot holds a valid token no issuer call is made and the run returns the
cached token unchanged, with its `access_token` as the bearer credential. -/
theorem fetch_exactly_when_needed {β : Type} (slot : Option Token) (now : Nat)
    (fetch : Except (Error β) Token)
    (m : String) (b : Option String) (u : String) :
    ((create_request slot now fetch m b u).fetches = 1 ↔
      slot = none ∨ ∃ t, slot = some t ∧ t.is_valid now = false) ∧
    (∀ t, slot = some t → t.is_valid now = true →
      create_request slot now fetch m b u =
        ⟨some t, 0, .ok (some ⟨m, requestUrl b u, t.access_token⟩)⟩) := by
  constructor
  · cases slot with
    | none =>
      cases fetch with
      | ok t => rw [create_request_none_ok]; simp
      | error e => rw [create_request_none_error]; simp
    | some t =>
      by_cases hv : t.is_valid now
      · rw [create_request_valid t now fetch m b u hv]
        simp [hv]
      · rw [Bool.not_eq_true] at hv
        cases fetch with
        | ok t2 => rw [create_request_invalid_ok t now t2 m b u hv]; simp [hv]
        | error e => rw [create_request_invalid_error t now e m b u hv]; simp [hv]
  · rintro t rfl hv
    exact create_request_valid t now fetch m b u hv

/-- witness for `fetch_exactly_when_needed`: a slot holding a fresh token
is used unchanged even when the issuer would fail. -/
theorem fetch_exactly_when_needed_witness :
    create_request (β := Unit) (some ⟨3600, "tok-A", 0⟩) 0 (.error .transport)
        "POST" none "/v3/conversations" =
      ⟨some ⟨3600, "tok-A", 0⟩, 0,
        .ok (some ⟨"POST", requestUrl none "/v3/conversations", "tok-A"⟩)⟩ :=
  (fetch_exactly_when_needed (some ⟨3600, "tok-A", 0⟩) 0 (.error .transport)
      "POST" none "/v3/conversations").2
    ⟨3600, "tok-A", 0⟩ rfl (by decide)

/-- C2: when a refresh is needed and `fetch_token` fails, `create_request`
propagates that error and leaves the slot exactly as it was (the `?`
aborts before the assignment), and every subsequent call — at any later
instant, with any issuer outcome — attempts the refresh again. -/
theorem fetch_failure_leaves_slot {β : Type} (slot : Option Token) (now : Nat)
    (e : Error β) (m : String) (b : Option String) (u : String)
    (hneed : slot = none ∨ ∃ t, slot = some t ∧ t.is_valid now = false) :
    create_request slot now (.error e) m b u = ⟨slot, 1, .error e⟩ ∧
    (∀ now2, now ≤ now2 → ∀ fetch2 : Except (Error β) Token,
      (create_request slot now2 fetch2 m b u).fetches = 1) := by
  constructor
  · rcases hneed with rfl | ⟨t, rfl, hv⟩
    · exact create_request_none_error now e m b u
    · exact create_request_invalid_error t now e m b u hv
  · intro now2 hle fetch2
    rcases hneed with rfl | ⟨t, rfl, hv⟩
    · cases fetch2 with
      | ok t2 => rw [create_request_none_ok]
      | error e2 => rw [create_request_none_error]
    · have hv2 := is_valid_mono_false t now now2 hv hle
      cases fetch2 with
      | ok t2 => rw [create_request_invalid_ok t now2 t2 m b u hv2]
      | error e2 => rw [create_request_invalid_error t now2 e2 m b u hv2]

/-- witness for `fetch_failure_leaves_slot`: an expired token (lifetime
60 s, checked 120 s after acquisition) survives a failed refresh, and a
retry 10 s later still fetches. -/
theorem fetch_failure_leaves_slot_witness :
    create_request (β := Unit) (some ⟨60, "stale", 0⟩) (120 * nsPerSec)
        (.error .transport) "POST" none "/v3/conversations" =
      ⟨some ⟨60, "stale", 0⟩, 1, .error .transport⟩ ∧
    (create_request (β := Unit) (some ⟨60, "stale", 0⟩) (130 * nsPerSec)
        (.ok ⟨3600, "tok-B", 130 * nsPerSec⟩) "POST" none
        "/v3/conversations").fetches = 1 := by
  have h := fetch_failure_leaves_slot (β := Unit) (some ⟨60, "stale", 0⟩)
    (120 * nsPerSec) .transport "POST" none "/v3/conversations"
    (Or.inr ⟨⟨60, "stale", 0⟩, rfl, by decide⟩)
  exact ⟨h.1, h.2 (130 * nsPerSec) (by norm_num [nsPerSec])
    (.ok ⟨3600, "tok-B", 130 * nsPerSec⟩)⟩

/-- C9: whenever the check-and-possibly-refresh step of `create_request`
completes without error, the slot holds a token, so the unconditional
`token.as_ref().unwrap()` (the `none` request in the model) can never be
reached, from every initial slot state. -/
theorem unwrap_never_panics {β : Type} (slot : Option Token) (now : Nat)
    (fetch : Except (Error β) Token)
    (m : String) (b : Option String) (u : String) (o : Option Request)
    (h : (create_request slot now fetch m b u).out = .ok o) :
    o.isSome = true ∧ (create_request slot now fetch m b u).slot.isSome = true := by
  cases slot with
  | none =>
    cases fetch with
    | ok t =>
      rw [create_request_none_ok] at h ⊢
      simp at h
      simp [← h]
    | error e => rw [create_request_none_error] at h; simp at h
  | some t =>
    by_cases hv : t.is_valid now
    · rw [create_request_valid t now fetch m b u hv] at h ⊢
      simp at h
      simp [← h]
    · rw [Bool.not_eq_true] at hv
      cases fetch with
      | ok t2 =>
        rw [create_request_invalid_ok t now t2 m b u hv] at h ⊢
        simp at h
        simp [← h]
      | error e => rw [create_request_invalid_error t now e m b u hv] at h; simp at h

/-- witness for `unwrap_never_panics`: starting from an empty slot with a
successful fetch, the returned request exists and the slot is filled. -/
theorem unwrap_never_panics_witness :
    (some (Request.mk "POST" "https://smba.trafficmanager.net/teams/p"
      "tok-A") : Option Request).isSome = true ∧
    (create_request (β := Unit) none 0 (.ok ⟨3600, "tok-A", 0⟩) "POST" none
      "/p").slot.isSome = true :=
  unwrap_never_panics (β := Unit) none 0 (.ok ⟨3600, "tok-A", 0⟩) "POST" none
    "/p" _ rfl

/-- once the slot holds a token valid at `now`, every further caller in the
serialized sequence makes no fetch and receives that same token. -/
theorem run_callers_valid_slot {β : Type} (t : Token) (now : Nat)
    (fetch : Except (Error β) Token)
    (m : String) (b : Option String) (u : String) (n : Nat)
    (hv : t.is_valid now = true) :
    run_callers (some t) now fetch m b u n =
      (some t, 0, List.replicate n
        (.ok (some ⟨m, requestUrl b u, t.access_token⟩))) := by
  induction n with
  | zero => rfl
  | succ k ih =>
    rw [run_callers, create_request_valid t now fetch m b u hv, ih]
    rfl

/-- C4 counterexample: two callers race an empty cache and the issuer
returns a token with lifetime 60 s — a token the safety margin makes
immediately invalid. The first caller's fetch succeeds and fills the slot,
yet the second caller finds the cached token invalid and performs its own
issuer round-trip: the total is two round-trips, not exactly one. -/
theorem duplicate_refresh_on_stale_issuer_token :
    (run_callers (β := Unit) none 0 (.ok ⟨60, "tok-A", 0⟩) "POST" none
      "/v3/conversations" 2).2.1 = 2 ∧
    ¬ (run_callers (β := Unit) none 0 (.ok ⟨60, "tok-A", 0⟩) "POST" none
      "/v3/conversations" 2).2.1 = 1 := by
  constructor
  · rfl
  · decide

/-- C4 (amended): over the lock-serialized sequence of N+1 callers racing
an empty or expired cache, provided the issuer returns a token that is
still valid at the instant of the race, exactly one caller performs the
issuer round-trip; the slot ends holding that fetched token and every
caller's request carries it as bearer. -/
theorem single_refresh_under_serialization {β : Type}
    (slot : Option Token) (now : Nat) (tok : Token)
    (m : String) (b : Option String) (u : String) (n : Nat)
    (hneed : slot = none ∨ ∃ t, slot = some t ∧ t.is_valid now = false)
    (hvalid : tok.is_valid now = true) :
    run_callers (β := β) slot now (.ok tok) m b u (n + 1) =
      (some tok, 1, List.replicate (n + 1)
        (.ok (some ⟨m, requestUrl b u, tok.access_token⟩))) := by
  rcases hneed with rfl | ⟨t, rfl, hv⟩
  · rw [run_callers, create_request_none_ok,
      run_callers_valid_slot tok now (.ok tok) m b u n hvalid]
    rfl
  · rw [run_callers, create_request_invalid_ok t now tok m b u hv,
      run_callers_valid_slot tok now (.ok tok) m b u n hvalid]
    rfl

/-- witness for `single_refresh_under_serialization`: three callers race a
slot holding an expired token (lifetime 60 s, checked 120 s later); the
issuer answers with a 3600 s token acquired at the race instant. -/
theorem single_refresh_under_serialization_witness :
    run_callers (β := Unit) (some ⟨60, "stale", 0⟩) (120 * nsPerSec)
        (.ok ⟨3600, "tok-A", 120 * nsPerSec⟩) "POST" none
        "/v3/conversations" 3 =
      (some ⟨3600, "tok-A", 120 * nsPerSec⟩, 1, List.replicate 3
        (.ok (some ⟨"POST", requestUrl none "/v3/conversations",
          "tok-A"⟩))) :=
  single_refresh_under_serialization (β := Unit) (some ⟨60, "stale", 0⟩)
    (120 * nsPerSec) ⟨3600, "tok-A", 120 * nsPerSec⟩ "POST" none
    "/v3/conversations" 2
    (Or.inr ⟨⟨60, "stale", 0⟩, rfl, by decide⟩) (by decide)

/-- the head of `dropWhile p l`, when present, never satisfies `p`. -/
theorem head_dropWhile_false {α : Type} (p : α → Bool) (l : List α) (a : α)
    (h : (l.dropWhile p).head? = some a) : p a = false := by
  induction l with
  | nil => simp [List.dropWhile] at h
  | cons x xs ih =>
    rw [List.dropWhile_cons] at h
    by_cases hx : p x = true
    · rw [if_pos hx] at h
      exact ih h
    · rw [if_neg hx] at h
      simp only [List.head?_cons, Option.some.injEq] at h
      rw [← h]
      simpa using hx

/-- C5: the effective base URL is the caller-supplied override with all
trailing slashes stripped when present, else the fixed default endpoint;
the request URL is exactly that base concatenated with the path; the
trimmed base never ends in a slash, so a path beginning with `/` puts
exactly one slash at the junction; and the override `"https://host/"` with
path `"/v3/x"` composes to `"https://host/v3/x"`. -/
theorem base_url_resolution :
    (∀ b u : String, requestUrl (some b) u = trimEndSlashes b ++ u) ∧
    (∀ u : String, requestUrl none u = defaultBaseUrl ++ u) ∧
    (∀ b : String, (trimEndSlashes b).toList.getLast? ≠ some '/') ∧
    (∀ b u : String, u.toList.head? = some '/' →
      (requestUrl (some b) u).toList =
        (trimEndSlashes b).toList ++ '/' :: u.toList.tail) ∧
    requestUrl (some "https://host/") "/v3/x" = "https://host/v3/x" := by
  refine ⟨fun b u => rfl, fun u => rfl, ?_, ?_, rfl⟩
  · intro b h
    have h2 : ((b.toList.reverse.dropWhile (fun c => c = '/')).reverse).getLast?
        = some '/' := h
    rw [List.getLast?_reverse] at h2
    have h3 := head_dropWhile_false _ _ _ h2
    simp at h3
  · intro b u h
    have hu : u.toList = '/' :: u.toList.tail := by
      cases hcase : u.toList with
      | nil => rw [hcase] at h; simp at h
      | cons c cs =>
        rw [hcase] at h
        simp only [List.head?_cons, Option.some.injEq] at h
        rw [h]
        rfl
    show (trimEndSlashes b).toList ++ u.toList = _
    rw [hu]
    rfl

/-- witness for `base_url_resolution`: junction of the trimmed override
`"https://host"` and the path `"/v3/x"`. -/
theorem base_url_resolution_witness :
    (requestUrl (some "https://host") "/v3/x").toList =
      (trimEndSlashes "https://host").toList ++ '/' :: "/v3/x".toList.tail :=
  base_url_resolution.2.2.2.1 "https://host" "/v3/x" rfl

/-- C6: every HTTP exchange — the issuer fetch and each bot operation —
classifies the response by status: a 2xx response whose body parses as the
declared success type is returned `Ok` with that value, and a non-2xx
response whose body parses as the error envelope is returned as
`Error::Teams` carrying exactly that payload, never a synthesized generic
error; and `is_success` means precisely `200 ≤ status < 300`. -/
theorem status_classification {α β : Type} :
    (∀ r : HttpResponse α β, ∀ v : α,
      isSuccessStatus r.status = true → r.okBody = some v →
      create_conversation_classify r = .ok v ∧
      send_to_conversation_classify r = .ok v ∧
      update_activity_classify r = .ok v) ∧
    (∀ r : HttpResponse α β, ∀ e : β,
      isSuccessStatus r.status = false → r.errBody = some e →
      create_conversation_classify r = .error (.teams e) ∧
      send_to_conversation_classify r = .error (.teams e) ∧
      update_activity_classify r = .error (.teams e)) ∧
    (∀ now : Nat, ∀ rt : HttpResponse WireToken β, ∀ w : WireToken,
      isSuccessStatus rt.status = true → rt.okBody = some w →
      fetch_token_classify now rt = .ok (deserializeToken w now)) ∧
    (∀ now : Nat, ∀ rt : HttpResponse WireToken β, ∀ e : β,
      isSuccessStatus rt.status = false → rt.errBody = some e →
      fetch_token_classify now rt = .error (.teams e)) ∧
    (∀ s : Nat, isSuccessStatus s = true ↔ 200 ≤ s ∧ s < 300) := by
  refine ⟨?_, ?_, ?_, ?_, ?_⟩
  · intro r v hs hb
    refine ⟨?_, ?_, ?_⟩ <;>
      simp [create_conversation_classify, send_to_conversation_classify,
        update_activity_classify, classifyResponse, hs, hb]
  · intro r e hs hb
    refine ⟨?_, ?_, ?_⟩ <;>
      simp [create_conversation_classify, send_to_conversation_classify,
        update_activity_classify, classifyResponse, hs, hb]
  · intro now rt w hs hb
    simp [fetch_token_classify, classifyResponse, hs, hb, Except.map]
  · intro now rt e hs hb
    simp [fetch_token_classify, classifyResponse, hs, hb, Except.map]
  · intro s
    simp [isSuccessStatus]

/-- witness for `status_classification`: a 201 create-conversation
response, a 500 update-activity response, and a 200 issuer response. -/
theorem status_classification_witness :
    create_conversation_classify
        (⟨201, some 7, none⟩ : HttpResponse Nat String) = .ok 7 ∧
    update_activity_classify
        (⟨500, none, some "bad"⟩ : HttpResponse Nat String) =
      .error (.teams "bad") ∧
    fetch_token_classify 5
        (⟨200, some ⟨3600, "tok-A", none⟩, none⟩ :
          HttpResponse WireToken String) =
      .ok ⟨3600, "tok-A", 5⟩ :=
  ⟨((status_classification (α := Nat) (β := String)).1
     ⟨201, some 7, none⟩ 7 (by decide) rfl).1,
   ((status_classification (α := Nat) (β := String)).2.1
     ⟨500, none, some "bad"⟩ "bad" (by decide) rfl).2.2,
   (status_classification (α := Nat) (β := String)).2.2.1 5
     ⟨200, some ⟨3600, "tok-A", none⟩, none⟩
     ⟨3600, "tok-A", none⟩ (by decide) rfl⟩

/-- splitting a list that is free of the separator yields it whole. -/
theorem splitSep_no_sep (sep : Char) (l : List Char) (h : sep ∉ l) :
    splitSep sep l = [l] := by
  induction l with
  | nil => rfl
  | cons x xs ih =>
    have hx : ¬ x = sep := fun hxe => h (hxe ▸ List.mem_cons_self x xs)
    rw [splitSep, if_neg hx,
      ih (fun hm => h (List.mem_cons_of_mem x hm))]

/-- splitting at the first occurrence of the separator. -/
theorem splitSep_first (sep : Char) (a b : List Char) (h : sep ∉ a) :
    splitSep sep (a ++ sep :: b) = a :: splitSep sep b := by
  induction a with
  | nil => simp [splitSep]
  | cons x xs ih =>
    have hx : ¬ x = sep := fun hxe => h (hxe ▸ List.mem_cons_self x xs)
    rw [List.cons_append, splitSep, if_neg hx,
      ih (fun hm => h (List.mem_cons_of_mem x hm))]

/-- a `String.toList` distributes over concatenation. -/
theorem toList_append (s t : String) : (s ++ t).toList = s.toList ++ t.toList :=
  rfl

/-- splitting a list of the shape `A ++ c :: (V ++ sep :: B)` where the
separator occurs nowhere before `B`. -/
theorem splitSep_seg (sep c : Char) (A V B : List Char)
    (hA : sep ∉ A) (hc : ¬ c = sep) (hV : sep ∉ V) :
    splitSep sep (A ++ c :: (V ++ sep :: B)) =
      (A ++ c :: V) :: splitSep sep B := by
  have hmem : sep ∉ (A ++ c :: V) := by
    intro hm
    rcases List.mem_append.mp hm with hm | hm
    · exact hA hm
    · rcases List.mem_cons.mp hm with hm | hm
      · exact hc hm.symm
      · exact hV hm
  have hshape : A ++ c :: (V ++ sep :: B) = (A ++ c :: V) ++ sep :: B := by
    simp
  rw [hshape, splitSep_first sep _ _ hmem]

/-- C7: `fetch_token` sends a single POST to the fixed issuer endpoint with
content type `application/x-www-form-urlencoded`, and (for credentials free
of the form metacharacters `&` and `=`, which the code does not escape) the
body decodes to exactly the four pairs `grant_type=client_credentials`,
`client_id`, `client_secret` and the fixed default-resource scope, with the
configured client id and secret as the corresponding values. -/
theorem issuer_request_shape (client_id client_secret : String)
    (h1 : '&' ∉ client_id.toList) (h2 : '=' ∉ client_id.toList)
    (h3 : '&' ∉ client_secret.toList) (h4 : '=' ∉ client_secret.toList) :
    (fetch_token_request client_id client_secret).method = "POST" ∧
    (fetch_token_request client_id client_secret).url = issuerEndpoint ∧
    (fetch_token_request client_id client_secret).contentType =
      "application/x-www-form-urlencoded" ∧
    parseForm (fetch_token_request client_id client_secret).body =
      [("grant_type", "client_credentials"), ("client_id", client_id),
       ("client_secret", client_secret), ("scope", defaultScope)] := by
  refine ⟨rfl, rfl, rfl, ?_⟩
  have dl1 : "grant_type=client_credentials&client_id=".toList =
      "grant_type=client_credentials".toList ++
        ('&' :: ("client_id".toList ++ ['='])) := by decide
  have dl2 : "&client_secret=".toList =
      '&' :: ("client_secret".toList ++ ['=']) := by decide
  have dl3 : "&scope=https%3A%2F%2Fapi.botframework.com%2F.default".toList =
      '&' :: ("scope".toList ++ ('=' :: defaultScope.toList)) := by decide
  have hb : (fetch_token_request client_id client_secret).body.toList =
      "grant_type=client_credentials".toList ++ '&' ::
        ("client_id".toList ++ '=' :: (client_id.toList ++ '&' ::
          ("client_secret".toList ++ '=' :: (client_secret.toList ++ '&' ::
            ("scope".toList ++ '=' :: defaultScope.toList))))) := by
    rw [show (fetch_token_request client_id client_secret).body =
        "grant_type=client_credentials&client_id=" ++ client_id ++
          "&client_secret=" ++ client_secret ++
          "&scope=https%3A%2F%2Fapi.botframework.com%2F.default" from rfl]
    rw [toList_append, toList_append, toList_append, toList_append]
    rw [dl1, dl2, dl3]
    simp [List.append_assoc]
  rw [parseForm, hb,
    splitSep_first '&' _ _ (by decide),
    splitSep_seg '&' '=' _ _ _ (by decide) (by decide) h1,
    splitSep_seg '&' '=' _ _ _ (by decide) (by decide) h3,
    splitSep_no_sep '&' _ (by decide),
    List.map_cons, List.map_cons, List.map_cons, List.map_cons,
    List.map_nil]
  have p1 : formPair "grant_type=client_credentials".toList =
      ("grant_type", "client_credentials") := by decide
  have p2 : formPair ("client_id".toList ++ '=' :: client_id.toList) =
      ("client_id", client_id) := by
    rw [formPair, splitSep_first '=' _ _ (by decide),
      splitSep_no_sep '=' _ h2]
    rfl
  have p3 : formPair ("client_secret".toList ++ '=' :: client_secret.toList) =
      ("client_secret", client_secret) := by
    rw [formPair, splitSep_first '=' _ _ (by decide),
      splitSep_no_sep '=' _ h4]
    rfl
  have p4 : formPair ("scope".toList ++ '=' :: defaultScope.toList) =
      ("scope", defaultScope) := by
    rw [formPair, splitSep_first '=' _ _ (by decide),
      splitSep_no_sep '=' _ (by decide)]
    rfl
  rw [p1, p2, p3, p4]

/-- witness for `issuer_request_shape` at the spec example credentials
`"c1"` and `"s1"`. -/
theorem issuer_request_shape_witness :
    (fetch_token_request "c1" "s1").method = "POST" ∧
    (fetch_token_request "c1" "s1").url = issuerEndpoint ∧
    (fetch_token_request "c1" "s1").contentType =
      "application/x-www-form-urlencoded" ∧
    parseForm (fetch_token_request "c1" "s1").body =
      [("grant_type", "client_credentials"), ("client_id", "c1"),
       ("client_secret", "s1"), ("scope", defaultScope)] :=
  issuer_request_shape "c1" "s1" (by decide) (by decide) (by decide)
    (by decide)

end TeamsApi

